import Mathlib

/-!
Shallow embedding of the cluster tunnel fabric of the claudecodeui repository:
the master-side TunnelManager (tunnel-manager.js), the slave-side TunnelClient
and the request-router middleware (request-router.js / tunnel-client.js), and
the cluster status routes (routes/cluster.js).  JavaScript Maps become
association lists, WebSocket handles become an identifier plus a readyState,
asynchronous callbacks become explicit events of a step relation, and the side
effects of a handler (frames sent, sockets closed, promise completions) are
returned as an explicit effect list.
-/

namespace Cluster

/-- WebSocket readyState values (ws library: CONNECTING, OPEN, CLOSING, CLOSED). -/
inductive ReadyState
  | connecting
  | opened
  | closing
  | closed
deriving Repr, DecidableEq

/-- Association-list lookup, modelling JavaScript `Map.get` / object indexing. -/
def lookupKey {κ α : Type} [DecidableEq κ] (k : κ) : List (κ × α) → Option α
  | [] => none
  | (k2, v) :: rest => if k2 = k then some v else lookupKey k rest

/-- Association-list update, modelling JavaScript `Map.set` (replaces any entry
with the same key). -/
def setKey {κ α : Type} [DecidableEq κ] (k : κ) (v : α) (m : List (κ × α)) :
    List (κ × α) :=
  (k, v) :: m.filter (fun kv => kv.1 ≠ k)

/-- HTTP headers as a JavaScript plain object: association list keyed by the
exact header-name string. -/
abbrev Headers := List (String × String)

/-- JavaScript `delete obj[k]`: removes exactly the entry with key `k`. -/
def deleteHeader (headers : Headers) (k : String) : Headers :=
  headers.filter (fun kv => kv.1 ≠ k)

/-- tunnel-manager.js `sanitizeHeaders` (lines 397-414): deletes the eight
hop-by-hop header names and the routing header, each by its exact lowercase
key. -/
def sanitizeHeaders (headers : Headers) : Headers :=
  let s1 := deleteHeader headers ("connection")
  let s2 := deleteHeader s1 ("keep-alive")
  let s3 := deleteHeader s2 ("proxy-authenticate")
  let s4 := deleteHeader s3 ("proxy-authorization")
  let s5 := deleteHeader s4 ("te")
  let s6 := deleteHeader s5 ("trailers")
  let s7 := deleteHeader s6 ("transfer-encoding")
  let s8 := deleteHeader s7 ("upgrade")
  deleteHeader s8 ("x-target-slave")

/-- The nine names `sanitizeHeaders` deletes (the hop-by-hop set plus
`x-target-slave`), exactly as they appear in the source. -/
def forwardedHeaderBlocklist : List String :=
  [("connection"), ("keep-alive"), ("proxy-authenticate"), ("proxy-authorization"),
   ("te"), ("trailers"), ("transfer-encoding"), ("upgrade"), ("x-target-slave")]

/-- An HTTP response value as resolved to a pending request's waiter
(`pending.resolve({status, headers, body})`). -/
structure HttpResp where
  status : Nat
  headers : Headers
  body : String
deriving Repr, DecidableEq

/-- Resolution or rejection of a pending request's promise. -/
inductive Completion
  | resolved (r : HttpResp)
  | rejected (msg : String)
deriving Repr, DecidableEq

/-- A `response` frame from the slave (fields `requestId, status, headers,
body, error`); `error = none` models the field being absent. -/
structure ResponseFrame where
  requestId : String
  status : Nat
  headers : Headers
  body : String
  error : Option String
deriving Repr, DecidableEq

/-- An `http_request` frame emitted on a slave's control connection. -/
structure HttpRequestFrame where
  requestId : String
  method : String
  path : String
  headers : Headers
  body : Option String
deriving Repr, DecidableEq

/-- Frames the master sends to a slave over the control connection. -/
inductive Frame
  | authSuccess (slaveId : String)
  | httpRequest (f : HttpRequestFrame)
  | pong (timestamp : Int)
  | wsTunnelOpen (tunnelId : String) (channel : String) (token : Option String)
  | wsMessage (tunnelId : String) (data : String)
  | wsTunnelClose (tunnelId : String)
deriving Repr, DecidableEq

/-- Observable side effects of a master-side handler: closing a control
connection with a close code, closing a tunnel's user-side WebSocket, sending
a frame on a control connection, writing data to a tunnel's user-side
WebSocket, and completing a pending request's promise. -/
inductive Effect
  | closeWs (wsId : Nat) (code : Nat)
  | closeLocalWs (tunnelId : String)
  | sendFrame (wsId : Nat) (frame : Frame)
  | sendLocalWs (tunnelId : String) (data : String)
  | completeP (requestId : String) (c : Completion)
deriving Repr, DecidableEq

/-- Whether an effect completes (resolves or rejects) some pending request. -/
def Effect.isCompletion : Effect → Bool
  | .completeP _ _ => true
  | _ => false

/-- A slave registry record (`this.slaves` values): the control connection is
kept as an identifier `wsId` whose readyState lives in `MasterState.wsStates`;
the `connectedAt` / `lastPing` Date fields carry no information the claims
depend on and are omitted. -/
structure SlaveRecord where
  wsId : Nat
  name : String
  authenticated : Bool
deriving Repr, DecidableEq

/-- A tunnel record (`this.tunnels` values): owning slave id and the user-side
WebSocket, `none` when `tunnel.localWs` is null/undefined. The `channel` tag is
kept for fidelity. -/
structure TunnelRecord where
  slaveId : String
  localWs : Option ReadyState
  channel : String
deriving Repr, DecidableEq

/-- The TunnelManager's mutable state: the three Maps of tunnel-manager.js,
plus the readyState of every control-connection socket by identifier.
`pendingRequests` keeps only the request ids: resolve/reject handles are
abstracted by `Effect.completeP` effects. -/
structure MasterState where
  slaves : List (String × SlaveRecord)
  pendingRequests : List String
  tunnels : List (String × TunnelRecord)
  wsStates : List (Nat × ReadyState)
deriving Repr, DecidableEq

/-- readyState of a control connection (`ws.readyState`); a socket unknown to
the state reads as closed. -/
def wsReadyState (st : MasterState) (wsId : Nat) : ReadyState :=
  (lookupKey wsId st.wsStates).getD ReadyState.closed

namespace TunnelManager

/-- tunnel-manager.js `isSlaveConnected` (lines 389-392). -/
def isSlaveConnected (st : MasterState) (slaveId : String) : Bool :=
  match lookupKey slaveId st.slaves with
  | none => false
  | some slave => wsReadyState st slave.wsId = ReadyState.opened

/-- An incoming user HTTP request as read by `forwardHttpRequest`: method,
`request.url`, the Node header object, and the body chunks drained from the
request stream. -/
structure Request where
  method : String
  url : String
  headers : Headers
  bodyChunks : List String
deriving Repr, DecidableEq

/-- tunnel-manager.js `forwardHttpRequest` (lines 258-295). The fresh
`randomUUID` request id is passed in as `requestId`; the body is collected
for non-GET/HEAD methods; the pending entry is stored and an `http_request`
frame with sanitized headers is sent on the slave's control connection. A
synchronous throw (`Slave ... not connected`) is an `Except.error`. -/
def forwardHttpRequest (st : MasterState) (slaveId : String) (requestId : String)
    (request : Request) : Except String (MasterState × List Effect) :=
  match lookupKey slaveId st.slaves with
  | none => Except.error ("Slave " ++ slaveId ++ " not connected")
  | some slave =>
    if wsReadyState st slave.wsId ≠ ReadyState.opened then
      Except.error ("Slave " ++ slaveId ++ " not connected")
    else
      let body : Option String :=
        if request.method = "GET" ∨ request.method = "HEAD" then none
        else some (String.join request.bodyChunks)
      Except.ok
        ({ st with pendingRequests := requestId :: st.pendingRequests },
         [Effect.sendFrame slave.wsId (Frame.httpRequest
           { requestId := requestId, method := request.method,
             path := request.url, headers := sanitizeHeaders request.headers,
             body := body })])

/-- tunnel-manager.js `handleHttpResponse` (lines 177-194): no pending entry
for the id means the frame is discarded; otherwise the timer is cleared, the
entry removed, and the promise rejected (when `error` is present) or
resolved. -/
def handleHttpResponse (st : MasterState) (msg : ResponseFrame) :
    MasterState × List Effect :=
  if st.pendingRequests.contains msg.requestId then
    ({ st with pendingRequests :=
         st.pendingRequests.filter (fun r => r ≠ msg.requestId) },
     [Effect.completeP msg.requestId
        (match msg.error with
         | some e => Completion.rejected e
         | none => Completion.resolved
             { status := msg.status, headers := msg.headers, body := msg.body })])
  else (st, [])

/-- The `setTimeout` callback installed by `forwardHttpRequest` (lines
278-281): deletes the pending entry and rejects with "Request timeout". The
timer is cancelled (`clearTimeout`) exactly when the entry is removed by
another path, so the callback can only run while the entry is present; the
guard models that. -/
def fireRequestTimeout (st : MasterState) (requestId : String) :
    MasterState × List Effect :=
  if st.pendingRequests.contains requestId then
    ({ st with pendingRequests :=
         st.pendingRequests.filter (fun r => r ≠ requestId) },
     [Effect.completeP requestId (Completion.rejected ("Request timeout"))])
  else (st, [])

/-- tunnel-manager.js `handleSlaveError` (lines 242-253): when the error frame
names a request id with a pending entry, the timer is cleared, the entry
removed and the promise rejected with the frame's error (default
"Slave error"). `requestId = none` or `some ""` models a falsy field. -/
def handleSlaveError (st : MasterState) (requestId : Option String)
    (error : Option String) : MasterState × List Effect :=
  match requestId with
  | none => (st, [])
  | some rid =>
    if rid = "" then (st, [])
    else if st.pendingRequests.contains rid then
      ({ st with pendingRequests :=
           st.pendingRequests.filter (fun r => r ≠ rid) },
       [Effect.completeP rid (Completion.rejected
          (match error with
           | some e => if e = "" then ("Slave error") else e
           | none => ("Slave error")))])
    else (st, [])

/-- tunnel-manager.js `handleWsTunnelData` (lines 199-211): forwards data to
the tunnel's user-side WebSocket when the tunnel exists and the socket is
open; otherwise the frame is dropped. -/
def handleWsTunnelData (st : MasterState) (tunnelId : String) (data : String) :
    MasterState × List Effect :=
  match lookupKey tunnelId st.tunnels with
  | none => (st, [])
  | some tunnel =>
    if tunnel.localWs = some ReadyState.opened then
      (st, [Effect.sendLocalWs tunnelId data])
    else (st, [])

/-- tunnel-manager.js `handleWsTunnelClosed` (lines 216-226). -/
def handleWsTunnelClosed (st : MasterState) (tunnelId : String) :
    MasterState × List Effect :=
  match lookupKey tunnelId st.tunnels with
  | none => (st, [])
  | some tunnel =>
    ({ st with tunnels := st.tunnels.filter (fun kv => kv.1 ≠ tunnelId) },
     if tunnel.localWs = some ReadyState.opened then
       [Effect.closeLocalWs tunnelId]
     else [])

/-- The `ws.on('close')` handler of `handleConnection` (lines 76-92), run with
the connection closure's `slaveId` variable: when set and still registered,
the registry entry is deleted and every tunnel of that slave id is removed,
closing its user-side WebSocket when open. `pendingRequests` is not
touched. -/
def handleClose (st : MasterState) (connSlaveId : Option String) :
    MasterState × List Effect :=
  match connSlaveId with
  | none => (st, [])
  | some sid =>
    if (lookupKey sid st.slaves).isSome then
      ({ st with
         slaves := st.slaves.filter (fun kv => kv.1 ≠ sid),
         tunnels := st.tunnels.filter (fun kv => kv.2.slaveId ≠ sid) },
       (st.tunnels.filter
          (fun kv => kv.2.slaveId = sid ∧ kv.2.localWs = some ReadyState.opened)).map
         (fun kv => Effect.closeLocalWs kv.1))
    else (st, [])

/-- tunnel-manager.js `getSlaves` (lines 356-368) entry shape. -/
structure SlaveInfo where
  id : String
  name : String
  status : String
deriving Repr, DecidableEq

/-- tunnel-manager.js `getSlaves` (lines 356-368). -/
def getSlaves (st : MasterState) : List SlaveInfo :=
  st.slaves.map (fun kv =>
    { id := kv.1, name := kv.2.name,
      status := if wsReadyState st kv.2.wsId = ReadyState.opened
                then ("connected") else ("disconnected") })

/-- tunnel-manager.js `getSlave` (lines 373-384). -/
def getSlave (st : MasterState) (slaveId : String) : Option SlaveInfo :=
  match lookupKey slaveId st.slaves with
  | none => none
  | some slave =>
    some { id := slaveId, name := slave.name,
           status := if wsReadyState st slave.wsId = ReadyState.opened
                     then ("connected") else ("disconnected") }

end TunnelManager

/-- Frames a slave sends to the master on the control connection (the slave →
master half of the wire protocol); parse failures of the raw bytes are
represented by `none` at the call sites below. -/
inductive CtrlMsg
  | auth (slaveId : Option String) (slaveName : Option String) (secret : Option String)
  | response (r : ResponseFrame)
  | wsData (tunnelId : String) (data : String)
  | wsTunnelClosed (tunnelId : String)
  | ping (timestamp : Int)
  | errorMsg (requestId : Option String) (error : Option String)
  | unknown (t : String)
deriving Repr, DecidableEq

/-- The per-connection closure variables of `handleConnection`
(`authenticated`, `slaveId`). -/
structure ConnInfo where
  authenticated : Bool
  slaveId : Option String
deriving Repr, DecidableEq

/-- The master process: configured secret, TunnelManager state, and the
closure state of every live incoming control connection. -/
structure System where
  secret : String
  master : MasterState
  conns : List (Nat × ConnInfo)
deriving Repr, DecidableEq

/-- Asynchronous events on the master: a new control connection, a `message`
event on connection `wsId` (`none` when `JSON.parse` throws), the `close`
event of a connection's socket, and the authentication deadline firing. -/
inductive Event
  | connect (wsId : Nat)
  | message (wsId : Nat) (raw : Option CtrlMsg)
  | socketClosed (wsId : Nat)
  | authTimeout (wsId : Nat)
deriving Repr, DecidableEq

/-- JavaScript falsiness of an optional string field (`!x`): absent or
empty. -/
def optFalsy : Option String → Bool
  | none => true
  | some s => s = ""

namespace TunnelManager

/-- `ws.close(code, ...)` on a control connection: the socket enters CLOSING
(its `close` event is a later `Event.socketClosed`) and the close is recorded
as an effect. -/
def closeConn (sys : System) (wsId : Nat) (code : Nat) : System × List Effect :=
  ({ sys with master :=
      { sys.master with wsStates := setKey wsId ReadyState.closing sys.master.wsStates } },
   [Effect.closeWs wsId code])

/-- tunnel-manager.js `handleAuth` (lines 102-142) together with the `.then` /
`.catch` of its caller (lines 55-63): missing (falsy) slaveId or secret, or a
mismatched secret, rejects and the caller closes with 4002; otherwise any
already-registered slave with an OPEN control connection is closed with 4004,
the registry entry is replaced, the connection closure is marked
authenticated, and `auth_success` is sent. -/
def handleAuth (sys : System) (wsId : Nat) (slaveId : Option String)
    (slaveName : Option String) (secret : Option String) : System × List Effect :=
  if optFalsy slaveId || optFalsy secret then closeConn sys wsId 4002
  else
    let sid := slaveId.getD ""
    if secret.getD "" ≠ sys.secret then closeConn sys wsId 4002
    else
      let evicted :=
        match lookupKey sid sys.master.slaves with
        | some existing =>
          if wsReadyState sys.master existing.wsId = ReadyState.opened then
            closeConn sys existing.wsId 4004
          else (sys, [])
        | none => (sys, [])
      let name :=
        match slaveName with
        | some s => if s = "" then sid else s
        | none => sid
      ({ evicted.1 with
         master := { evicted.1.master with
           slaves := setKey sid { wsId := wsId, name := name, authenticated := true }
             evicted.1.master.slaves },
         conns := setKey wsId { authenticated := true, slaveId := some sid }
           evicted.1.conns },
       evicted.2 ++ [Effect.sendFrame wsId (Frame.authSuccess sid)])

/-- tunnel-manager.js `handleSlaveMessage` (lines 147-172) dispatch for an
authenticated connection; `ping` refreshes `lastPing` (a Date, not modelled)
and answers `pong` on the slave's registered socket; unknown types are logged
and ignored. -/
def handleSlaveMessage (sys : System) (slaveId : Option String) (msg : CtrlMsg) :
    System × List Effect :=
  match msg with
  | CtrlMsg.response r =>
    let res := handleHttpResponse sys.master r
    ({ sys with master := res.1 }, res.2)
  | CtrlMsg.wsData tid d =>
    let res := handleWsTunnelData sys.master tid d
    ({ sys with master := res.1 }, res.2)
  | CtrlMsg.wsTunnelClosed tid =>
    let res := handleWsTunnelClosed sys.master tid
    ({ sys with master := res.1 }, res.2)
  | CtrlMsg.ping ts =>
    (match slaveId with
     | some sid =>
       match lookupKey sid sys.master.slaves with
       | some slave => (sys, [Effect.sendFrame slave.wsId (Frame.pong ts)])
       | none => (sys, [])
     | none => (sys, []))
  | CtrlMsg.errorMsg rid err =>
    let res := handleSlaveError sys.master rid err
    ({ sys with master := res.1 }, res.2)
  | CtrlMsg.auth _ _ _ => (sys, [])
  | CtrlMsg.unknown _ => (sys, [])

/-- One master-side event step, following `handleConnection` (lines 34-97):
the `message` handler parses inside try/catch — a parse failure (raw = none)
is logged and dropped with no other action; before authentication only an
`auth` frame is accepted (anything else closes 4003); the `close` handler
removes the registry entry and the slave's tunnels; the auth deadline closes
an unauthenticated connection with 4001. -/
def step (sys : System) : Event → System × List Effect
  | Event.connect wsId =>
    ({ sys with
       master := { sys.master with
         wsStates := setKey wsId ReadyState.opened sys.master.wsStates },
       conns := setKey wsId { authenticated := false, slaveId := none } sys.conns },
     [])
  | Event.message wsId raw =>
    match raw with
    | none => (sys, [])
    | some msg =>
      match lookupKey wsId sys.conns with
      | none => (sys, [])
      | some c =>
        if c.authenticated then handleSlaveMessage sys c.slaveId msg
        else
          match msg with
          | CtrlMsg.auth sid sname sec => handleAuth sys wsId sid sname sec
          | _ => closeConn sys wsId 4003
  | Event.socketClosed wsId =>
    let sys1 : System :=
      { sys with
        master := { sys.master with
          wsStates := setKey wsId ReadyState.closed sys.master.wsStates },
        conns := sys.conns.filter (fun kv => kv.1 ≠ wsId) }
    (match lookupKey wsId sys.conns with
     | none => (sys1, [])
     | some c =>
       let res := handleClose sys1.master c.slaveId
       ({ sys1 with master := res.1 }, res.2))
  | Event.authTimeout wsId =>
    match lookupKey wsId sys.conns with
    | none => (sys, [])
    | some c =>
      if c.authenticated then (sys, [])
      else closeConn sys wsId 4001

end TunnelManager

/-- Runs a list of events through `TunnelManager.step`, accumulating
effects. -/
def runEvents (sys : System) : List Event → System × List Effect
  | [] => (sys, [])
  | e :: rest =>
    let r1 := TunnelManager.step sys e
    let r2 := runEvents r1.1 rest
    (r2.1, r1.2 ++ r2.2)

/-- Frames the master sends to the slave, as dispatched by tunnel-client.js
`handleMessage`; a raw frame that fails `JSON.parse` is `none` at the call
site. -/
inductive MasterMsg
  | authSuccess (slaveId : String)
  | httpRequest (f : HttpRequestFrame)
  | wsTunnelOpen (tunnelId : String) (channel : String) (token : Option String)
  | wsMessage (tunnelId : String) (data : String)
  | wsTunnelClose (tunnelId : String)
  | pong (timestamp : Int)
  | unknown (t : String)
deriving Repr, DecidableEq

/-- Observable side effects of a slave-side handler: frames handed to the
master (those that `send` actually wrote), writes to a local tunnel
WebSocket, and closes of a local tunnel WebSocket. -/
inductive ClientEffect
  | toMaster (m : CtrlMsg)
  | toLocalWs (tunnelId : String) (data : String)
  | closeLocalWs (tunnelId : String)
deriving Repr, DecidableEq

/-- The TunnelClient's mutable state (tunnel-client.js constructor): `ws` is
`none` when `this.ws` is null, otherwise the socket's readyState;
`localTunnels` maps tunnel ids to the readyState of the local WebSocket.
Timers (`reconnectTimer`, `pingInterval`) and the connection settings that no
claim depends on are omitted; `baseDelay` and `maxDelay` are kept as exact
numbers (the source works with JavaScript doubles on integral values). -/
structure ClientState where
  ws : Option ReadyState
  authenticated : Bool
  reconnectAttempts : Nat
  localTunnels : List (String × ReadyState)
  baseDelay : ℚ
  maxDelay : ℚ
deriving Repr, DecidableEq

namespace TunnelClient

/-- tunnel-client.js `send` (lines 401-405): the message is written only when
`this.ws` exists and its readyState is OPEN; otherwise nothing happens — no
throw, no queueing, no state change. -/
def send (st : ClientState) (m : CtrlMsg) : ClientState × List CtrlMsg :=
  match st.ws with
  | some ReadyState.opened => (st, [m])
  | _ => (st, [])

/-- tunnel-client.js `handleAuthSuccess` (lines 227-232): marks authenticated
and resets the reconnect attempt counter (the ping interval it starts is a
timer, not part of this state). -/
def handleAuthSuccess (st : ClientState) : ClientState :=
  { st with authenticated := true, reconnectAttempts := 0 }

/-- The delay computed by tunnel-client.js `scheduleReconnect` (lines
416-421): `min(baseDelay · 2^attempt, maxDelay)` plus the jitter
`Math.random() * 1000`. -/
def reconnectDelay (baseDelay maxDelay : ℚ) (attempt : Nat) (jitter : ℚ) : ℚ :=
  min (baseDelay * 2 ^ attempt) maxDelay + jitter

/-- tunnel-client.js `scheduleReconnect` (lines 410-430): computes the total
delay from the current attempt counter and the sampled jitter, then increments
the counter; returns the scheduled delay. -/
def scheduleReconnect (st : ClientState) (jitter : ℚ) : ClientState × ℚ :=
  ({ st with reconnectAttempts := st.reconnectAttempts + 1 },
   reconnectDelay st.baseDelay st.maxDelay st.reconnectAttempts jitter)

/-- tunnel-client.js `handleMessage` (lines 193-222) dispatch. `localHttp` is
the oracle for `forwardToLocal` (the local HTTP call): its eventual outcome
determines the `response` frame of `handleHttpRequest` (lines 237-259), which
is emitted through `send` and hence dropped when the control socket is not
open. `ws_tunnel_open` creates a local WebSocket whose registration happens in
that socket's own later `open` event, outside this synchronous step, so it
leaves the state unchanged here. -/
def handleMessage (localHttp : HttpRequestFrame → Except String HttpResp)
    (st : ClientState) (msg : MasterMsg) : ClientState × List ClientEffect :=
  match msg with
  | MasterMsg.authSuccess _ => (handleAuthSuccess st, [])
  | MasterMsg.httpRequest f =>
    let frame :=
      match localHttp f with
      | Except.ok r =>
        CtrlMsg.response { requestId := f.requestId, status := r.status,
                           headers := r.headers, body := r.body, error := none }
      | Except.error e =>
        CtrlMsg.response { requestId := f.requestId, status := 0,
                           headers := [], body := "", error := some e }
    let sent := send st frame
    (sent.1, sent.2.map ClientEffect.toMaster)
  | MasterMsg.wsTunnelOpen _ _ _ => (st, [])
  | MasterMsg.wsMessage tid d =>
    (match lookupKey tid st.localTunnels with
     | some ReadyState.opened => (st, [ClientEffect.toLocalWs tid d])
     | _ => (st, []))
  | MasterMsg.wsTunnelClose tid =>
    (match lookupKey tid st.localTunnels with
     | some _ =>
       ({ st with localTunnels := st.localTunnels.filter (fun kv => kv.1 ≠ tid) },
        [ClientEffect.closeLocalWs tid])
     | none => (st, []))
  | MasterMsg.pong _ => (st, [])
  | MasterMsg.unknown _ => (st, [])

/-- The `ws.on('message')` handler of tunnel-client.js `connect` (lines
151-158): `JSON.parse` runs inside try/catch, so a malformed frame
(raw = none) is logged and dropped with no further action. -/
def handleRaw (localHttp : HttpRequestFrame → Except String HttpResp)
    (st : ClientState) (raw : Option MasterMsg) : ClientState × List ClientEffect :=
  match raw with
  | none => (st, [])
  | some m => handleMessage localHttp st m

end TunnelClient

/-- A single-quote character as a string, used in the not-connected message
text of the middleware. -/
def sq : String := String.singleton (Char.ofNat 39)

/-- The structured JSON error body produced by the request-router middleware
(`{error, slaveId, message}`). -/
structure ErrorBody where
  error : String
  slaveId : String
  message : String
deriving Repr, DecidableEq

/-- Outcome of the request-router middleware for one request: fall through to
the local handler chain (`next()`), reply with an error body, or reply with a
forwarded response (status, filtered headers, body). -/
inductive RouterOutcome
  | next
  | respond (status : Nat) (body : ErrorBody)
  | respondForwarded (status : Nat) (headers : Headers) (body : String)
deriving Repr, DecidableEq

/-- Response headers the middleware refuses to copy back to the user
(request-router.js line 39), compared against the lowercased key. -/
def responseHeaderSkip : List String := [("transfer-encoding"), ("connection")]

/-- request-router.js `createRequestRouter` (lines 9-65). `connected` is
`tunnelManager.isSlaveConnected`; `fwd` is the awaited outcome of
`tunnelManager.forwardHttpRequest` (an `Except.error` when it throws or
rejects). The header is read from the Node header object, where `!targetSlave`
also treats an empty value as absent. The middleware inspects nothing but the
`x-target-slave` header to choose local vs. forwarded handling. -/
def requestRouter (connected : String → Bool)
    (fwd : Except String HttpResp) (req : TunnelManager.Request) : RouterOutcome :=
  match lookupKey ("x-target-slave") req.headers with
  | none => RouterOutcome.next
  | some t =>
    if t = "" ∨ t = "local" then RouterOutcome.next
    else if connected t = false then
      RouterOutcome.respond 503
        { error := "Slave not connected", slaveId := t,
          message := "The target client " ++ sq ++ t ++ sq ++ " is not currently connected" }
    else
      match fwd with
      | Except.ok r =>
        RouterOutcome.respondForwarded r.status
          (r.headers.filter (fun kv => (responseHeaderSkip.contains kv.1.toLower) = false))
          r.body
      | Except.error e =>
        RouterOutcome.respond 502
          { error := "Tunnel error", slaveId := t, message := e }

/-- JavaScript `url.startsWith(p)`, computed structurally over the underlying
character lists. -/
def strStartsWith (s p : String) : Bool :=
  p.data.isPrefixOf s.data

/-- utils/api.js `authenticatedFetch` header selection: the `X-Target-Slave`
header is added only for URLs outside `/api/cluster/`, `/api/user/` and
`/api/auth/`, and only when the selected client is truthy and not
`local`. -/
def clusterRoutingHeader (url : String) (selectedClient : String) : Option String :=
  if strStartsWith url ("/api/cluster/") || strStartsWith url ("/api/user/")
      || strStartsWith url ("/api/auth/") then
    none
  else if selectedClient ≠ "" ∧ selectedClient ≠ "local" then some selectedClient
  else none

/-- `process.env.DEPLOYMENT_MODE || 'standalone'` (routes/cluster.js line 21):
an unset or empty variable defaults to "standalone". -/
def envMode (deploymentMode : Option String) : String :=
  match deploymentMode with
  | none => "standalone"
  | some s => if s = "" then "standalone" else s

/-- Body of `GET /api/cluster/status` (routes/cluster.js lines 20-34). -/
structure StatusBody where
  mode : String
  isMaster : Bool
  connectedSlaves : Nat
  slaves : List TunnelManager.SlaveInfo
deriving Repr, DecidableEq

/-- routes/cluster.js `GET /status` handler (lines 20-34): `tm = none` models
a router created without a tunnel manager. -/
def statusRoute (deploymentMode : Option String) (tm : Option MasterState) :
    StatusBody :=
  let mode := envMode deploymentMode
  let slaves := match tm with
    | some m => TunnelManager.getSlaves m
    | none => []
  { mode := mode, isMaster := mode = "master",
    connectedSlaves := slaves.length, slaves := slaves }

/-- Status code and `error` field of a cluster-route JSON reply; `error =
none` on success bodies. -/
structure RouteReply where
  status : Nat
  error : Option String
deriving Repr, DecidableEq

/-- routes/cluster.js `GET /slaves` handler (lines 40-70). -/
def slavesRoute (tm : Option MasterState) : RouteReply :=
  match tm with
  | none => { status := 400, error := some ("Not in master mode") }
  | some _ => { status := 200, error := none }

/-- routes/cluster.js `GET /slaves/:id` handler (lines 76-114). -/
def slaveByIdRoute (tm : Option MasterState) (id : String) : RouteReply :=
  match tm with
  | none => { status := 400, error := some ("Not in master mode") }
  | some m =>
    if id = "local" then { status := 200, error := none }
    else
      match TunnelManager.getSlave m id with
      | none => { status := 404, error := some ("Slave not found") }
      | some _ => { status := 200, error := none }

/-- routes/cluster.js `GET /slaves/:id/health` handler (lines 120-160). -/
def slaveHealthRoute (tm : Option MasterState) (id : String) : RouteReply :=
  match tm with
  | none => { status := 400, error := some ("Not in master mode") }
  | some m =>
    if id = "local" then { status := 200, error := none }
    else
      match TunnelManager.getSlave m id with
      | none => { status := 404, error := some ("Slave not found") }
      | some _ => { status := 200, error := none }

/-- Modelled from the spec: the server entry point that wires the components
together is not among the sources; per the spec, a TunnelManager is
instantiated only in master mode (`DEPLOYMENT_MODE=master`), while slaves run
with `DEPLOYMENT_MODE=slave` and standalone deployments with the variable
unset — so a deployment without a tunnel manager may still have
`DEPLOYMENT_MODE=slave`. -/
def tunnelManagerInstantiated (deploymentMode : Option String) : Bool :=
  deploymentMode = some "master"

/-- A master state with one registered slave `s1` on open control connection
1, used to exercise `forwardHttpRequest`. -/
def c1wSt : MasterState :=
  { slaves := [(("s1"), { wsId := 1, name := "s1", authenticated := true })],
    pendingRequests := [], tunnels := [], wsStates := [(1, ReadyState.opened)] }

/-- A user request whose header map holds only lowercase keys, one of them
(`connection`) in the hop-by-hop set. -/
def c1wReq : TunnelManager.Request :=
  { method := "GET", url := "/p",
    headers := [(("connection"), ("close")), (("accept"), ("1"))],
    bodyChunks := [] }

/-- The frame `forwardHttpRequest c1wSt "s1" "r1" c1wReq` emits. -/
def c1wFrame : HttpRequestFrame :=
  { requestId := "r1", method := "GET", path := "/p",
    headers := [(("accept"), ("1"))], body := none }

/-- `c1wSt` after the pending entry for `r1` is stored. -/
def c1wStAfter : MasterState := { c1wSt with pendingRequests := [("r1")] }

/-- A user request whose header map names the connection header with a capital
letter, as an arbitrary caller of `sanitizeHeaders` may. -/
def c1Req : TunnelManager.Request :=
  { method := "GET", url := "/p",
    headers := [(("Connection"), ("close")), (("x-target-slave"), ("s1"))],
    bodyChunks := [] }

/-- A user request with a body chunk, forwarded to slave `s1`. -/
def c2Req : TunnelManager.Request :=
  { method := "POST", url := "/api/x", headers := [], bodyChunks := [("x")] }

/-- A master state with slave `s1` registered (open control connection 1) and
one tunnel `t1` owned by `s1` whose user-side WebSocket is open. -/
def c2St0 : MasterState :=
  { slaves := [(("s1"), { wsId := 1, name := "s1", authenticated := true })],
    pendingRequests := [],
    tunnels := [(("t1"),
      { slaveId := "s1", localWs := some ReadyState.opened, channel := "ws" })],
    wsStates := [(1, ReadyState.opened)] }

/-- `c2St0` after `forwardHttpRequest` has sent request `r1` to `s1`: the
pending entry `r1` is addressed to `s1`. -/
def c2St1 : MasterState :=
  match TunnelManager.forwardHttpRequest c2St0 ("s1") ("r1") c2Req with
  | Except.ok r => r.1
  | Except.error _ => c2St0

/-- An empty master process configured with secret "sec". -/
def c3Sys : System :=
  { secret := "sec",
    master := { slaves := [], pendingRequests := [], tunnels := [], wsStates := [] },
    conns := [] }

/-- Connection 1 authenticates as `s1`; connection 2 then authenticates as
`s1` with the correct secret (evicting connection 1 with 4004); finally
connection 1's deferred `close` event fires. -/
def c3Events : List Event :=
  [Event.connect 1,
   Event.message 1 (some (CtrlMsg.auth (some ("s1")) (some ("A")) (some ("sec")))),
   Event.connect 2,
   Event.message 2 (some (CtrlMsg.auth (some ("s1")) (some ("B")) (some ("sec")))),
   Event.socketClosed 1]

/-- A master state with no pending requests. -/
def c4St : MasterState :=
  { slaves := [], pendingRequests := [], tunnels := [], wsStates := [] }

/-- A response frame for request id `r0`. -/
def c4Msg : ResponseFrame :=
  { requestId := "r0", status := 200, headers := [], body := "", error := none }

/-- A client state three reconnect attempts in. -/
def c5St : ClientState :=
  { ws := none, authenticated := false, reconnectAttempts := 3,
    localTunnels := [], baseDelay := 5000, maxDelay := 60000 }

/-- A request carrying no `x-target-slave` header. -/
def c6Req : TunnelManager.Request :=
  { method := "GET", url := "/api/p", headers := [], bodyChunks := [] }

/-- A request targeting slave `s2`. -/
def c6ReqS2 : TunnelManager.Request :=
  { method := "GET", url := "/api/p",
    headers := [(("x-target-slave"), ("s2"))], bodyChunks := [] }

/-- A request for a cluster-status path that nevertheless carries an
`x-target-slave` header naming slave `s1`. -/
def c8Req : TunnelManager.Request :=
  { method := "GET", url := "/api/cluster/status",
    headers := [(("x-target-slave"), ("s1"))], bodyChunks := [] }

/-- A client state whose control socket is absent (`this.ws === null`). -/
def c10St : ClientState :=
  { ws := none, authenticated := false, reconnectAttempts := 0,
    localTunnels := [], baseDelay := 5000, maxDelay := 60000 }

/-- Filtering out a key removes it from the list. -/
theorem not_mem_filter_ne (x : String) (l : List String) :
    x ∉ l.filter (fun r => r ≠ x) := by
  intro hx
  have hp := List.of_mem_filter hx
  simp at hp

/-- Filtering out a key removes it for `lookupKey`. -/
theorem lookupKey_filter_self {κ α : Type} [DecidableEq κ] (k : κ)
    (l : List (κ × α)) :
    lookupKey k (l.filter (fun kv => kv.1 ≠ k)) = none := by
  induction l with
  | nil => rfl
  | cons kv l ih =>
    obtain ⟨k2, v⟩ := kv
    by_cases hk : k2 = k
    · simpa [List.filter_cons, hk] using ih
    · simpa [List.filter_cons, hk, lookupKey] using ih

/-- Members of a sanitized header map avoid all nine removed names. -/
theorem mem_sanitizeHeaders_not_blocked (h : Headers) (kv : String × String)
    (hkv : kv ∈ sanitizeHeaders h) : kv.1 ∉ forwardedHeaderBlocklist := by
  simp only [sanitizeHeaders, deleteHeader, List.mem_filter,
    decide_eq_true_eq] at hkv
  obtain ⟨⟨⟨⟨⟨⟨⟨⟨⟨hmem, h1⟩, h2⟩, h3⟩, h4⟩, h5⟩, h6⟩, h7⟩, h8⟩, h9⟩ := hkv
  simp [forwardedHeaderBlocklist, h1, h2, h3, h4, h5, h6, h7, h8, h9]

/-- A `response` frame for an id with no pending entry is a no-op. -/
theorem handleHttpResponse_absent (st : MasterState) (msg : ResponseFrame)
    (h : msg.requestId ∉ st.pendingRequests) :
    TunnelManager.handleHttpResponse st msg = (st, []) := by
  simp [TunnelManager.handleHttpResponse, h]

/-- After `handleHttpResponse` the id has no pending entry. -/
theorem handleHttpResponse_removes (st : MasterState) (msg : ResponseFrame) :
    msg.requestId ∉
      (TunnelManager.handleHttpResponse st msg).1.pendingRequests := by
  by_cases h : msg.requestId ∈ st.pendingRequests
  · simp [TunnelManager.handleHttpResponse, h]
  · simp [TunnelManager.handleHttpResponse, h]

/-- After the request timer fires the id has no pending entry. -/
theorem fireRequestTimeout_removes (st : MasterState) (rid : String) :
    rid ∉ (TunnelManager.fireRequestTimeout st rid).1.pendingRequests := by
  by_cases h : rid ∈ st.pendingRequests
  · simp [TunnelManager.fireRequestTimeout, h]
  · simp [TunnelManager.fireRequestTimeout, h]

/-- C7 (confirmed): a control-connection frame that is not valid JSON is
logged and dropped on the master — the message handler catches the parse
error, leaves the whole system state (connection registry, pending requests,
tunnels, connection closures) unchanged and emits no effect, in particular no
close — and the slave's message handler behaves the same for malformed frames
from the master. -/
theorem c7_malformed_frame_dropped (sys : System) (wsId : Nat)
    (localHttp : HttpRequestFrame → Except String HttpResp) (st : ClientState) :
    TunnelManager.step sys (Event.message wsId none) = (sys, []) ∧
    TunnelClient.handleRaw localHttp st none = (st, []) :=
  ⟨rfl, rfl⟩

/-- C10 (confirmed): whenever the slave's control socket is absent or not
OPEN, `TunnelClient.send` silently discards the message: it returns the state
unchanged (no throw, no queueing, `localTunnels` / `authenticated` /
`reconnectAttempts` untouched) and writes nothing. -/
theorem c10_send_drops_when_not_open (st : ClientState) (m : CtrlMsg)
    (h : st.ws ≠ some ReadyState.opened) :
    TunnelClient.send st m = (st, []) := by
  cases hw : st.ws with
  | none => simp [TunnelClient.send, hw]
  | some s =>
    cases s with
    | opened => exact absurd hw h
    | connecting => simp [TunnelClient.send, hw]
    | closing => simp [TunnelClient.send, hw]
    | closed => simp [TunnelClient.send, hw]

/-- C10 witness: a concrete disconnected client drops a ping frame. -/
theorem c10_send_drops_witness :
    TunnelClient.send c10St (CtrlMsg.ping 0) = (c10St, []) :=
  c10_send_drops_when_not_open c10St (CtrlMsg.ping 0) (by decide)

/-- C3 (code bug): after connection 2 authenticates as `s1` (evicting
connection 1 with code 4004), the registry points at connection 2 — but when
connection 1's deferred `close` event then fires, its handler checks only
`slaves.has(slaveId)`, not connection identity, and deletes the registry
entry that now refers to connection 2. Evaluating the step semantics on that
trace: 4004 is emitted for connection 1, the registry refers to connection 2
right after the second auth, and is empty after connection 1's close
event. -/
theorem c3_eviction_deferred_close_deletes_replacement :
    Effect.closeWs 1 4004 ∈ (runEvents c3Sys c3Events).2 ∧
    lookupKey ("s1") (runEvents c3Sys (c3Events.take 4)).1.master.slaves =
      some { wsId := 2, name := "B", authenticated := true } ∧
    lookupKey ("s1") (runEvents c3Sys c3Events).1.master.slaves = none := by
  decide

/-- C9 (corrected): `GET /api/cluster/status` reports `mode` equal to the
`DEPLOYMENT_MODE` environment variable (defaulting to "standalone" when unset
or empty) — not "standalone" whenever no tunnel manager exists — and with no
tunnel manager instantiated every other cluster endpoint (`/slaves`,
`/slaves/:id`, `/slaves/:id/health`) returns status 400 with error field
"Not in master mode". -/
theorem c9_cluster_routes_modes (dm : Option String) (id : String) :
    (statusRoute dm none).mode = envMode dm ∧
    (statusRoute none none).mode = "standalone" ∧
    slavesRoute none = { status := 400, error := some ("Not in master mode") } ∧
    slaveByIdRoute none id = { status := 400, error := some ("Not in master mode") } ∧
    slaveHealthRoute none id = { status := 400, error := some ("Not in master mode") } :=
  ⟨rfl, rfl, rfl, rfl, rfl⟩

/-- C9 counterexample: a slave deployment (per the spec, `DEPLOYMENT_MODE` is
"slave" and no tunnel manager is instantiated) makes `/status` report mode
"slave", refuting "reports mode standalone whenever no tunnel manager is
instantiated". -/
theorem c9_status_mode_counterexample :
    tunnelManagerInstantiated (some ("slave")) = false ∧
    (statusRoute (some ("slave")) none).mode = "slave" ∧
    (statusRoute (some ("slave")) none).mode ≠ "standalone" := by
  decide

/-- C4 (confirmed): completion of a pending request has observable effect at
most once — a `response` frame whose id has no pending entry is discarded
with no state change and no completion effect; after `handleHttpResponse` or
the timeout fires for an id, the pending entry is gone, so a later `response`
frame for the same id is a no-op. -/
theorem c4_completion_at_most_once (st : MasterState) (msg msg2 : ResponseFrame)
    (rid : String) :
    (msg.requestId ∉ st.pendingRequests →
      TunnelManager.handleHttpResponse st msg = (st, [])) ∧
    msg.requestId ∉
      (TunnelManager.handleHttpResponse st msg).1.pendingRequests ∧
    rid ∉ (TunnelManager.fireRequestTimeout st rid).1.pendingRequests ∧
    (msg2.requestId = msg.requestId →
      TunnelManager.handleHttpResponse
          (TunnelManager.handleHttpResponse st msg).1 msg2 =
        ((TunnelManager.handleHttpResponse st msg).1, [])) := by
  refine ⟨handleHttpResponse_absent st msg, handleHttpResponse_removes st msg,
    fireRequestTimeout_removes st rid, ?_⟩
  intro he
  apply handleHttpResponse_absent
  rw [he]
  exact handleHttpResponse_removes st msg

/-- C4 witness: on a state with no pending entry for `r0`, the frame is
discarded, and a repeated frame after a completion is a no-op. -/
theorem c4_completion_at_most_once_witness :
    TunnelManager.handleHttpResponse c4St c4Msg = (c4St, []) ∧
    TunnelManager.handleHttpResponse
        (TunnelManager.handleHttpResponse c4St c4Msg).1 c4Msg =
      ((TunnelManager.handleHttpResponse c4St c4Msg).1, []) :=
  ⟨(c4_completion_at_most_once c4St c4Msg c4Msg ("r0")).1 (by decide),
   (c4_completion_at_most_once c4St c4Msg c4Msg ("r0")).2.2.2 rfl⟩

/-- C5 (corrected): for attempt number n the scheduled delay is
`min(baseDelay · 2^n, maxDelay) + jitter` with jitter in [0, 1000) ms — so the
sharp bounds are `min(baseDelay · 2^n, maxDelay) ≤ delay <
min(baseDelay · 2^n, maxDelay) + 1000`, not `baseDelay · 2^n ≤ delay`; the
attempt counter is incremented when the reconnect is scheduled and reset to 0
on `auth_success`; with the defaults the first attempt's delay lies in
[5000, 6000). -/
theorem c5_backoff_bounds (base maxD jitter : ℚ) (attempt : Nat)
    (st : ClientState) (h0 : 0 ≤ jitter) (h1 : jitter < 1000) :
    min (base * 2 ^ attempt) maxD ≤
      TunnelClient.reconnectDelay base maxD attempt jitter ∧
    TunnelClient.reconnectDelay base maxD attempt jitter <
      min (base * 2 ^ attempt) maxD + 1000 ∧
    (TunnelClient.scheduleReconnect st jitter).2 =
      TunnelClient.reconnectDelay st.baseDelay st.maxDelay st.reconnectAttempts jitter ∧
    (TunnelClient.scheduleReconnect st jitter).1.reconnectAttempts =
      st.reconnectAttempts + 1 ∧
    (TunnelClient.handleAuthSuccess st).reconnectAttempts = 0 ∧
    5000 ≤ TunnelClient.reconnectDelay 5000 60000 0 jitter ∧
    TunnelClient.reconnectDelay 5000 60000 0 jitter < 6000 := by
  have hfirst : TunnelClient.reconnectDelay 5000 60000 0 jitter = 5000 + jitter := by
    norm_num [TunnelClient.reconnectDelay, min_def]
  refine ⟨?_, ?_, rfl, rfl, rfl, ?_, ?_⟩
  · unfold TunnelClient.reconnectDelay; linarith
  · unfold TunnelClient.reconnectDelay; linarith
  · rw [hfirst]; linarith
  · rw [hfirst]; linarith

/-- C5 witness: with base 5000, max 60000, attempt 3 and jitter 250 the
delay obeys the min-capped bounds. -/
theorem c5_backoff_bounds_witness :
    min ((5000 : ℚ) * 2 ^ 3) 60000 ≤ TunnelClient.reconnectDelay 5000 60000 3 250 ∧
    TunnelClient.reconnectDelay 5000 60000 3 250 <
      min ((5000 : ℚ) * 2 ^ 3) 60000 + 1000 :=
  ⟨(c5_backoff_bounds 5000 60000 250 3 c5St (by norm_num) (by norm_num)).1,
   (c5_backoff_bounds 5000 60000 250 3 c5St (by norm_num) (by norm_num)).2.1⟩

/-- C5 counterexample: at attempt 4 with the default settings the computed
delay is `min(80000, 60000) = 60000` (plus jitter), so the claimed lower
bound `baseDelay · 2^4 = 80000 ≤ delay` fails even at jitter 0. -/
theorem c5_lower_bound_counterexample :
    TunnelClient.reconnectDelay 5000 60000 4 0 = 60000 ∧
    ¬ ((5000 : ℚ) * 2 ^ 4 ≤ TunnelClient.reconnectDelay 5000 60000 4 0) := by
  constructor
  · norm_num [TunnelClient.reconnectDelay, min_def]
  · norm_num [TunnelClient.reconnectDelay, min_def]

/-- C1 (corrected): every `http_request` frame emitted by
`forwardHttpRequest` carries `sanitizeHeaders(request.headers)`, and sanitizing
removes the eight hop-by-hop names and `x-target-slave` by exact (lowercase)
key — so none of the nine names occurs as a key of the frame's header map.
Removal is case-sensitive: variants in other letter cases are not removed
(Node lowercases incoming request header names before they reach
`sanitizeHeaders`). -/
theorem c1_http_request_frame_headers_sanitized (st st2 : MasterState)
    (slaveId requestId : String) (req : TunnelManager.Request)
    (effs : List Effect)
    (hfw : TunnelManager.forwardHttpRequest st slaveId requestId req =
      Except.ok (st2, effs))
    (wsId : Nat) (f : HttpRequestFrame)
    (hf : Effect.sendFrame wsId (Frame.httpRequest f) ∈ effs)
    (kv : String × String) (hkv : kv ∈ f.headers) :
    kv.1 ∉ forwardedHeaderBlocklist := by
  cases hsl : lookupKey slaveId st.slaves with
  | none => simp [TunnelManager.forwardHttpRequest, hsl] at hfw
  | some slave =>
    by_cases hrs : wsReadyState st slave.wsId = ReadyState.opened
    · simp only [TunnelManager.forwardHttpRequest, hsl, hrs, ne_eq,
        not_true_eq_false, if_false, ite_false, Except.ok.injEq,
        Prod.mk.injEq] at hfw
      obtain ⟨hst2, heffs⟩ := hfw
      rw [← heffs] at hf
      simp only [List.mem_singleton, Effect.sendFrame.injEq,
        Frame.httpRequest.injEq] at hf
      rw [hf.2] at hkv
      exact mem_sanitizeHeaders_not_blocked req.headers kv hkv
    · simp [TunnelManager.forwardHttpRequest, hsl, hrs] at hfw

/-- C1 witness: a concrete forward whose input header map names `connection`
in lowercase; the surviving key "accept" is outside the removed set. -/
theorem c1_sanitized_witness :
    ((("accept"), ("1")) : String × String).1 ∉ forwardedHeaderBlocklist :=
  c1_http_request_frame_headers_sanitized c1wSt c1wStAfter ("s1") ("r1") c1wReq
    [Effect.sendFrame 1 (Frame.httpRequest c1wFrame)] rfl 1 c1wFrame
    (by decide) ((("accept"), ("1"))) (by decide)

/-- C1 counterexample: a header map carrying the connection header as
"Connection" passes sanitization untouched, so the emitted `http_request`
frame contains the connection header (its key differs from the removed name
"connection" only by letter case) — refuting removal "regardless of letter
case". -/
theorem c1_case_sensitivity_counterexample :
    (match TunnelManager.forwardHttpRequest c1wSt ("s1") ("r1") c1Req with
     | Except.ok r => r.2
     | Except.error _ => []) =
      [Effect.sendFrame 1 (Frame.httpRequest
        { requestId := "r1", method := "GET", path := "/p",
          headers := [(("Connection"), ("close"))], body := none })] ∧
    ("Connection").data.map Char.toLower = ("connection").data ∧
    ("Connection") ∉ forwardedHeaderBlocklist ∧
    ("connection") ∈ forwardedHeaderBlocklist := by
  refine ⟨rfl, by decide, by decide, by decide⟩

/-- C2 (corrected): when an authenticated slave's control connection closes
while the registry still holds its record, every tunnel record with that
slave id is removed in the same step — with a close of its user-side
WebSocket when open — and the registry entry is deleted; but the pending
requests are left untouched: no completion (in particular none with error
"slave disconnected") is emitted, each pending request ending only via a
later frame or its own timeout. -/
theorem c2_slave_close_cleanup (st : MasterState) (sid : String)
    (h : (lookupKey sid st.slaves).isSome = true) :
    (∀ kv ∈ (TunnelManager.handleClose st (some sid)).1.tunnels,
       kv.2.slaveId ≠ sid) ∧
    (∀ kv ∈ st.tunnels, kv.2.slaveId = sid →
       kv.2.localWs = some ReadyState.opened →
       Effect.closeLocalWs kv.1 ∈ (TunnelManager.handleClose st (some sid)).2) ∧
    (TunnelManager.handleClose st (some sid)).1.pendingRequests =
      st.pendingRequests ∧
    (∀ e ∈ (TunnelManager.handleClose st (some sid)).2,
       e.isCompletion = false) ∧
    lookupKey sid (TunnelManager.handleClose st (some sid)).1.slaves = none := by
  have hc : TunnelManager.handleClose st (some sid) =
      ({ st with
          slaves := st.slaves.filter (fun kv => kv.1 ≠ sid),
          tunnels := st.tunnels.filter (fun kv => kv.2.slaveId ≠ sid) },
       (st.tunnels.filter
          (fun kv => kv.2.slaveId = sid ∧ kv.2.localWs = some ReadyState.opened)).map
         (fun kv => Effect.closeLocalWs kv.1)) := by
    simp [TunnelManager.handleClose, h]
  rw [hc]
  refine ⟨?_, ?_, rfl, ?_, lookupKey_filter_self sid st.slaves⟩
  · intro kv hkv
    have hp := List.of_mem_filter hkv
    simpa using hp
  · intro kv hkv h1 h2
    exact List.mem_map_of_mem _ (List.mem_filter.mpr ⟨hkv, by simp [h1, h2]⟩)
  · intro e he
    obtain ⟨kv, _, rfl⟩ := List.mem_map.mp he
    rfl

/-- C2 witness: closing slave `s1` on a state with pending request `r1` and
tunnel `t1` leaves the pending map untouched and empties the registry entry. -/
theorem c2_slave_close_cleanup_witness :
    (TunnelManager.handleClose c2St1 (some ("s1"))).1.pendingRequests =
      c2St1.pendingRequests ∧
    lookupKey ("s1") (TunnelManager.handleClose c2St1 (some ("s1"))).1.slaves =
      none :=
  ⟨(c2_slave_close_cleanup c2St1 ("s1") (by decide)).2.2.1,
   (c2_slave_close_cleanup c2St1 ("s1") (by decide)).2.2.2.2⟩

/-- C2 counterexample: after forwarding request `r1` to slave `s1`, the close
of `s1`'s control connection removes the tunnel `t1` (closing its user-side
socket) but performs no completion: `r1` is still pending afterwards, so it
is not completed with "slave disconnected" in the same step — it can only die
at its own timeout. -/
theorem c2_pending_survive_close_counterexample :
    c2St1.pendingRequests = [("r1")] ∧
    (TunnelManager.handleClose c2St1 (some ("s1"))).1.pendingRequests = [("r1")] ∧
    (TunnelManager.handleClose c2St1 (some ("s1"))).2 =
      [Effect.closeLocalWs ("t1")] ∧
    lookupKey ("t1") (TunnelManager.handleClose c2St1 (some ("s1"))).1.tunnels =
      none := by
  decide

/-- C6 (confirmed): the routing middleware passes the request to the local
handler chain when the `x-target-slave` header is absent or "local"; replies
503 with `{error: "Slave not connected", slaveId, message}` when the named
slave is not connected; and replies 502 with `{error: "Tunnel error",
slaveId, message}` when forwarding throws. -/
theorem c6_request_router_dispatch (connected : String → Bool)
    (fwd : Except String HttpResp) (req : TunnelManager.Request)
    (t emsg : String) :
    (lookupKey ("x-target-slave") req.headers = none →
      requestRouter connected fwd req = RouterOutcome.next) ∧
    (lookupKey ("x-target-slave") req.headers = some ("local") →
      requestRouter connected fwd req = RouterOutcome.next) ∧
    (lookupKey ("x-target-slave") req.headers = some t → t ≠ "" →
      t ≠ "local" → connected t = false →
      requestRouter connected fwd req = RouterOutcome.respond 503
        { error := "Slave not connected", slaveId := t,
          message := "The target client " ++ sq ++ t ++ sq ++
            " is not currently connected" }) ∧
    (lookupKey ("x-target-slave") req.headers = some t → t ≠ "" →
      t ≠ "local" → connected t = true → fwd = Except.error emsg →
      requestRouter connected fwd req = RouterOutcome.respond 502
        { error := "Tunnel error", slaveId := t, message := emsg }) := by
  refine ⟨?_, ?_, ?_, ?_⟩
  · intro hh; simp [requestRouter, hh]
  · intro hh; simp [requestRouter, hh]
  · intro hh ht1 ht2 hc; simp [requestRouter, hh, ht1, ht2, hc]
  · intro hh ht1 ht2 hc hf; simp [requestRouter, hh, ht1, ht2, hc, hf]

/-- C6 witness: concrete requests exercising the local, 503 and 502
branches. -/
theorem c6_request_router_dispatch_witness :
    requestRouter (fun _ => false) (Except.error ("boom")) c6Req =
      RouterOutcome.next ∧
    requestRouter (fun _ => false) (Except.error ("boom")) c6ReqS2 =
      RouterOutcome.respond 503
        { error := "Slave not connected", slaveId := "s2",
          message := "The target client " ++ sq ++ "s2" ++ sq ++
            " is not currently connected" } ∧
    requestRouter (fun _ => true) (Except.error ("boom")) c6ReqS2 =
      RouterOutcome.respond 502
        { error := "Tunnel error", slaveId := "s2", message := "boom" } :=
  ⟨(c6_request_router_dispatch (fun _ => false) (Except.error ("boom")) c6Req
      ("s2") ("boom")).1 rfl,
   (c6_request_router_dispatch (fun _ => false) (Except.error ("boom")) c6ReqS2
      ("s2") ("boom")).2.2.1 rfl (by decide) (by decide) rfl,
   (c6_request_router_dispatch (fun _ => true) (Except.error ("boom")) c6ReqS2
      ("s2") ("boom")).2.2.2 rfl (by decide) (by decide) rfl rfl⟩

/-- C8 (corrected): the routing middleware performs no path-based dispatch —
a request whose path begins with `/api/cluster/` but carries an
`x-target-slave` header naming a connected slave is forwarded through the
tunnel (or answered with a tunnel error), never passed to the local handler
chain; the always-local rule for `/api/cluster/`, `/api/user/` and
`/api/auth/` paths is enforced only client-side, where `authenticatedFetch`
omits the header for those URLs. -/
theorem c8_no_path_bypass (connected : String → Bool)
    (fwd : Except String HttpResp) (req : TunnelManager.Request)
    (url sel t : String)
    (hurl : strStartsWith url ("/api/cluster/") = true)
    (_hru : req.url = url)
    (hh : lookupKey ("x-target-slave") req.headers = some t)
    (ht1 : t ≠ "") (ht2 : t ≠ "local") (hc : connected t = true) :
    clusterRoutingHeader url sel = none ∧
    requestRouter connected fwd req ≠ RouterOutcome.next := by
  constructor
  · simp [clusterRoutingHeader, hurl]
  · cases fwd with
    | ok r => simp [requestRouter, hh, ht1, ht2, hc]
    | error e => simp [requestRouter, hh, ht1, ht2, hc]

/-- C8 witness: the concrete cluster-status request with a connected target
slave is not dispatched locally, and the client never adds the header for
cluster URLs. -/
theorem c8_no_path_bypass_witness :
    clusterRoutingHeader ("/api/cluster/status") ("s1") = none ∧
    requestRouter (fun _ => true)
        (Except.ok { status := 200, headers := [], body := "ok" }) c8Req ≠
      RouterOutcome.next :=
  c8_no_path_bypass (fun _ => true)
    (Except.ok { status := 200, headers := [], body := "ok" }) c8Req
    ("/api/cluster/status") ("s1") ("s1") (by decide) rfl rfl (by decide)
    (by decide) rfl

/-- C8 counterexample: the request for `/api/cluster/status` carrying
`x-target-slave: s1` with `s1` connected is forwarded through the tunnel by
the middleware, not dispatched to the local handler chain. -/
theorem c8_cluster_path_forwarded_counterexample :
    strStartsWith c8Req.url ("/api/cluster/") = true ∧
    requestRouter (fun _ => true)
        (Except.ok { status := 200, headers := [], body := "ok" }) c8Req =
      RouterOutcome.respondForwarded 200 [] ("ok") ∧
    requestRouter (fun _ => true)
        (Except.ok { status := 200, headers := [], body := "ok" }) c8Req ≠
      RouterOutcome.next := by
  refine ⟨by decide, rfl, by decide⟩

end Cluster
